import Mathlib

/-!
Verification of `sawtooth_sdk/client/stream.py` (the Sawtooth SDK stream
client): a correlation-based request/response client over a ZMQ DEALER
socket, with a background thread (`_SendReceiveThread`) running an asyncio
event loop with three coroutines (send, receive, disconnect monitor), a
`FutureCollection` registry shared between the caller-facing `Stream`
object and the background thread, and a `threading.Event` readiness flag.

The embedding below translates each relevant method of the source into a
pure function over an explicit `StreamState`.  Concurrency (caller threads
interleaved with the event loop) is modelled by a small labelled transition
system (`Action` / `applyAction`) whose atomic steps correspond to the
code sections that run without yielding control: the asyncio event loop is
cooperatively scheduled, so each coroutine body between two `yield from`
points is one atomic step, and `Stream.send` on a caller thread is split
exactly at its only interleaving point — the readiness check (line 250)
versus the registration / enqueue body (lines 252-259).
-/

/-- A wire message, mirroring the three fields of `validator_pb2.Message`
used by `stream.py`: `message_type`, `correlation_id`, `content`. -/
structure Message where
  message_type : Nat
  correlation_id : String
  content : List Nat
  deriving Repr, DecidableEq

/-- Status of a `Future` object held in the `FutureCollection`.
Modelled from the spec: the `Future` class itself
(`sawtooth_sdk.client.future`) is not under `src/`; per the spec a future
is a single-assignment cell `Pending → Resolved | Failed`, terminal once
set (first assignment wins). -/
inductive FStatus where
  | pending
  | resolvedOk
  | failed
  deriving Repr, DecidableEq

/-- An item on the inbound (`_recv_queue`) queue: either a
`validator_pb2.Message` or the `RECONNECT_EVENT` sentinel (`-1`,
stream.py line 43). -/
inductive QItem where
  | msg (m : Message)
  | reconnectEvent
  deriving Repr, DecidableEq

/-- A caller thread that has passed the readiness check in `Stream.send`
(line 250) but has not yet executed the registration/enqueue body
(lines 252-259).  Records the arguments of the call and the correlation
id drawn from `_generate_id`. -/
structure PendingSend where
  message_type : Nat
  cid : String
  content : List Nat
  deriving Repr, DecidableEq

/-- The state of one `Stream` object together with its
`_SendReceiveThread`.

* `ready` — the `threading.Event` passed as `ready_event` (`Stream._event`).
* `firstTime` — the `first_time` local of `_SendReceiveThread.run`.
* `sockConnected` / `sockIdentity` / `lingerDisabled` /
  `monitorInstalled` — the ZMQ DEALER socket of the current epoch.
* `loopsStarted` — whether the three coroutines of the current epoch are
  scheduled on the event loop.
* `registry` — the `FutureCollection` contents: correlation id to the
  status of its `Future` object.
* `sendQueue` / `recvQueue` — `_send_queue` / `_recv_queue`; `none`
  models the Python attribute being `None` (before the first epoch setup
  and after `_monitor_disconnects` nulls them).
* `sent` — correlation ids of messages already written to the socket by
  `_send_message` (environment bookkeeping for the peer model).
* `issued` — every correlation id ever drawn by `_generate_id` for a
  `Stream.send` call (environment bookkeeping).
* `inflight` — caller threads between the readiness check and the body of
  `Stream.send`. -/
structure StreamState where
  ready : Bool
  firstTime : Bool
  sockConnected : Bool
  sockIdentity : String
  lingerDisabled : Bool
  monitorInstalled : Bool
  loopsStarted : Bool
  registry : List (String × FStatus)
  sendQueue : Option (List Message)
  recvQueue : Option (List QItem)
  sent : List String
  issued : List String
  inflight : List PendingSend
  deriving Repr, DecidableEq

/-- The exception raised by `Stream.send` / `Stream.send_back` when the
readiness event is not set (`ValidatorConnectionError`,
`sawtooth_sdk.client.exceptions`). -/
inductive VError where
  | validatorConnectionError
  deriving Repr, DecidableEq

/-- `FutureCollection` lookup by correlation id (first entry wins, as in a
Python dict with unique keys). -/
def lookupStatus (r : List (String × FStatus)) (cid : String) : Option FStatus :=
  (r.find? (fun p => p.1 = cid)).map Prod.snd

/-- `FutureCollection.remove`: delete the entry for a correlation id. -/
def eraseEntry (r : List (String × FStatus)) (cid : String) : List (String × FStatus) :=
  r.filter (fun p => ¬ (p.1 = cid))

/-- The registry after the fail-all loop of `_monitor_disconnects`
(stream.py lines 141-142): `future.set_result(FutureError())` is called on
every future still in the collection.  Modelled from the spec for the
`Future` class: `set_result` is first-assignment-wins, so only pending
futures change, and nothing is removed from the collection. -/
def failAll (r : List (String × FStatus)) : List (String × FStatus) :=
  r.map (fun p => (p.1, if p.2 = FStatus.pending then FStatus.failed else p.2))

/-- `_SendReceiveThread.put_message` (stream.py lines 151-161): if the
ready event is not set, return immediately (the message is silently
discarded); otherwise wait for the event loop and send queue to exist and
schedule `_put_message`, which does `self._send_queue.put_nowait(message)`.
The `none` branch with `ready = true` models the (unreachable while ready)
condition wait and leaves the state unchanged. -/
def put_message (s : StreamState) (m : Message) : StreamState :=
  if s.ready = false then s
  else
    match s.sendQueue with
    | some q => { s with sendQueue := some (q ++ [m]) }
    | none => s

/-- One iteration of `_SendReceiveThread._receive_message`
(stream.py lines 86-102) applied to one parsed inbound message:
`self._futures.set_result(...)` followed by `self._futures.remove(...)`
when the correlation id is registered (the net registry effect is removal;
the future object itself is resolved first-assignment-wins), and on
`FutureCollectionKeyError` either a `break` that drops the message (when
the ready event is clear) or `self._recv_queue.put_nowait(message)`. -/
def receive_message_step (s : StreamState) (m : Message) : StreamState :=
  match lookupStatus s.registry m.correlation_id with
  | some _ => { s with registry := eraseEntry s.registry m.correlation_id }
  | none =>
    if s.ready = false then s
    else
      match s.recvQueue with
      | some q => { s with recvQueue := some (q ++ [QItem.msg m]) }
      | none => s

/-- `_SendReceiveThread._monitor_disconnects` (stream.py lines 134-149)
after the monitor socket reports a disconnect: clear the ready event, call
`set_result(FutureError())` on every future in the collection (without
removing any entry), cancel every task of the loop, null out both queues,
and close the socket. -/
def monitor_disconnects_step (s : StreamState) : StreamState :=
  { s with
    ready := false
    registry := failAll s.registry
    loopsStarted := false
    sendQueue := none
    recvQueue := none
    sockConnected := false }

/-- The socket setup of one pass of `_SendReceiveThread.run`
(stream.py lines 203-208): a fresh DEALER socket, its identity set to the
first 16 characters of a fresh `_generate_id()` draw (`gid`),
`zmq.LINGER` set to 0, connect, and a monitor socket subscribed to
`zmq.EVENT_DISCONNECTED`. -/
def epochSocketSetup (gid : String) (s : StreamState) : StreamState :=
  { s with
    sockConnected := true
    sockIdentity := gid.take 16
    lingerDisabled := true
    monitorInstalled := true }

/-- The queue setup of one pass of `_SendReceiveThread.run`
(stream.py lines 209-214): fresh `_send_queue` and `_recv_queue`, and,
when this is not the first pass, `RECONNECT_EVENT` is put on the fresh
receive queue. -/
def epochQueueSetup (s : StreamState) : StreamState :=
  { s with
    sendQueue := some []
    recvQueue := some (if s.firstTime then [] else [QItem.reconnectEvent]) }

/-- The end of one pass of `_SendReceiveThread.run`
(stream.py lines 215-225): schedule the three coroutines
(`_send_message`, `_receive_message`, `_monitor_disconnects`), set the
ready event, run the loop; `first_time` is `False` from the end of the
first pass on. -/
def epochLoopStart (s : StreamState) : StreamState :=
  { s with loopsStarted := true, ready := true, firstTime := false }

/-- One full pass of the epoch setup at the top of
`_SendReceiveThread.run` (stream.py lines 195-225), parameterised by the
fresh `_generate_id()` draw used for the socket identity. -/
def runSetup (gid : String) (s : StreamState) : StreamState :=
  epochLoopStart (epochQueueSetup (epochSocketSetup gid s))

/-- The state right after `Stream.__init__` (stream.py lines 229-239):
the futures collection is empty, the ready event is **set**
(`self._event.set()`, line 233), and the background thread has been
started but has not yet run its first epoch setup, so no socket or queue
exists yet. -/
def streamInit : StreamState :=
  { ready := true
    firstTime := true
    sockConnected := false
    sockIdentity := ""
    lingerDisabled := false
    monitorInstalled := false
    loopsStarted := false
    registry := []
    sendQueue := none
    recvQueue := none
    sent := []
    issued := []
    inflight := [] }

/-- `Stream.send` (stream.py lines 241-260) run without interleaving,
parameterised by the correlation id `cid` drawn from `_generate_id`
(lines 46-49: the sha512 hex digest of 1024 random letters, modelled as an
oracle input): raise `ValidatorConnectionError` when the ready event is
clear; otherwise build the message, register a `Future` under `cid` in the
collection, hand the message to `put_message`, and return the future
(identified here by its correlation id) immediately. -/
def Stream.send (s : StreamState) (message_type : Nat) (content : List Nat)
    (cid : String) : Except VError (String × StreamState) :=
  if s.ready = false then .error .validatorConnectionError
  else
    let message : Message :=
      { message_type := message_type, correlation_id := cid, content := content }
    let s1 := { s with registry := (cid, FStatus.pending) :: s.registry }
    .ok (cid, put_message s1 message)

/-- `Stream.send_back` (stream.py lines 262-276): raise
`ValidatorConnectionError` when the ready event is clear; otherwise build
the message with the caller-supplied correlation id and hand it to
`put_message`.  No future is registered. -/
def Stream.send_back (s : StreamState) (message_type : Nat)
    (correlation_id : String) (content : List Nat) : Except VError StreamState :=
  if s.ready = false then .error .validatorConnectionError
  else
    .ok (put_message s
      { message_type := message_type, correlation_id := correlation_id,
        content := content })

/-- `Stream.is_ready` (stream.py lines 291-297): `self._event.is_set()`. -/
def Stream.is_ready (s : StreamState) : Bool :=
  s.ready

/-- Correlation ids of the messages currently on the outbound queue. -/
def queuedCids (s : StreamState) : List String :=
  (s.sendQueue.getD []).map Message.correlation_id

/-- Correlation ids of the caller threads between the readiness check and
the body of `Stream.send`. -/
def inflightCids (s : StreamState) : List String :=
  s.inflight.map PendingSend.cid

/-- One atomic step of the interleaved system: caller-thread halves of
`Stream.send`, one iteration of each worker coroutine, a disconnect event,
and one epoch setup.  Each constructor corresponds to a source section
that runs without an interleaving point (see the module comment). -/
inductive StreamAction where
  | sendCheck (message_type : Nat) (cid : String) (content : List Nat)
  | sendCommit (cid : String)
  | sendWire
  | deliver (m : Message)
  | disconnect
  | reconnect (gid : String)
  deriving Repr, DecidableEq

/-- Whether an action is the disconnect event. -/
def StreamAction.isDisconnect : StreamAction → Bool
  | .disconnect => true
  | _ => false

/-- The transition function.  `none` means the action is not enabled.

* `sendCheck` — a caller thread passes the readiness check of
  `Stream.send` (line 250) with a fresh draw of `_generate_id` (the
  freshness precondition `cid ∉ s.issued` models the practically
  collision-free 512-bit random id space, lines 46-49).
* `sendCommit` — that caller thread runs the body (lines 252-259):
  registers the `Future` and calls `put_message`, which re-checks the
  ready event.
* `sendWire` — one iteration of `_send_message` (lines 104-113): requires
  the ready event (line 110) and a queued message, writes it to the socket.
* `deliver m` — the network hands `_receive_message` one complete message
  (lines 86-102); requires the loop to be running with the ready event set
  (line 87).  The well-behaved-peer precondition says an inbound
  correlation id is either one this client actually put on the wire or one
  the client never issued (a validator-originated id): the peer cannot
  guess an issued-but-never-sent 512-bit id.
* `disconnect` — the monitor socket fires (lines 134-149).
* `reconnect` — the outer loop of `run` performs the next epoch setup
  (lines 195-225). -/
def applyAction : StreamAction → StreamState → Option StreamState
  | .sendCheck mt cid ct, s =>
    if s.ready = true ∧ cid ∉ s.issued then
      some { s with
        issued := cid :: s.issued
        inflight := { message_type := mt, cid := cid, content := ct } :: s.inflight }
    else none
  | .sendCommit cid, s =>
    match s.inflight.find? (fun p => p.cid = cid) with
    | some p =>
      some (put_message
        { s with
          inflight := s.inflight.filter (fun q => ¬ (q.cid = cid))
          registry := (cid, FStatus.pending) :: s.registry }
        { message_type := p.message_type, correlation_id := cid,
          content := p.content })
    | none => none
  | .sendWire, s =>
    if s.ready = true ∧ s.loopsStarted = true then
      match s.sendQueue with
      | some (m :: rest) =>
        some { s with sendQueue := some rest, sent := m.correlation_id :: s.sent }
      | _ => none
    else none
  | .deliver m, s =>
    if (s.ready = true ∧ s.loopsStarted = true) ∧
        (m.correlation_id ∈ s.sent ∨ m.correlation_id ∉ s.issued) then
      some (receive_message_step s m)
    else none
  | .disconnect, s =>
    if s.sockConnected = true then some (monitor_disconnects_step s) else none
  | .reconnect gid, s =>
    if s.sockConnected = false then some (runSetup gid s) else none

/-- Run a list of actions from a state; fails if any action is not
enabled. -/
def runActions : List StreamAction → StreamState → Option StreamState
  | [], s => some s
  | a :: tr, s => (applyAction a s).bind (runActions tr)

/-- A trace that contains no disconnect event. -/
def DisconnectFree (tr : List StreamAction) : Prop :=
  ∀ a ∈ tr, a.isDisconnect = false

/-- A state the system can reach from the freshly constructed `Stream`. -/
def Reachable (s : StreamState) : Prop :=
  ∃ tr, runActions tr streamInit = some s

theorem lookupStatus_cons (cid' : String) (st : FStatus)
    (r : List (String × FStatus)) (cid : String) :
    lookupStatus ((cid', st) :: r) cid =
      if cid' = cid then some st else lookupStatus r cid := by
  by_cases h : cid' = cid <;> simp [lookupStatus, List.find?_cons, h]

theorem lookupStatus_eraseEntry_ne (r : List (String × FStatus))
    (k cid : String) (h : ¬ k = cid) :
    lookupStatus (eraseEntry r k) cid = lookupStatus r cid := by
  induction r with
  | nil => rfl
  | cons p r ih =>
    obtain ⟨a, st⟩ := p
    by_cases ha : a = k
    · subst ha
      simpa [eraseEntry, lookupStatus_cons, h, List.filter] using ih
    · by_cases hc : a = cid <;>
        simp_all [eraseEntry, lookupStatus_cons, List.filter]

theorem lookupStatus_eraseEntry_none (r : List (String × FStatus))
    (k cid : String) (h : lookupStatus r cid = none) :
    lookupStatus (eraseEntry r k) cid = none := by
  induction r with
  | nil => rfl
  | cons p r ih =>
    obtain ⟨a, st⟩ := p
    by_cases hc : a = cid
    · simp [lookupStatus_cons, hc] at h
    · by_cases ha : a = k <;>
        simp_all [eraseEntry, lookupStatus_cons, List.filter]

theorem lookupStatus_failAll (r : List (String × FStatus)) (cid : String) :
    lookupStatus (failAll r) cid =
      (lookupStatus r cid).map
        (fun st => if st = FStatus.pending then FStatus.failed else st) := by
  induction r with
  | nil => rfl
  | cons p r ih =>
    obtain ⟨a, st⟩ := p
    by_cases hc : a = cid
    · simp [failAll, lookupStatus_cons, hc]
    · simp only [failAll, List.map_cons] at ih ⊢
      simpa [lookupStatus_cons, hc, failAll] using ih

theorem failAll_keys (r : List (String × FStatus)) :
    (failAll r).map Prod.fst = r.map Prod.fst := by
  simp [failAll]

/-- A correlation id that was issued and registered pending but never put
on the outbound queue nor written to the socket, with no caller thread
still about to enqueue it.  This is the situation produced by the race
between the readiness check of `Stream.send` (line 250) and the fail-all
loop of `_monitor_disconnects` (lines 140-142). -/
def UnsentPending (s : StreamState) (cid : String) : Prop :=
  lookupStatus s.registry cid = some FStatus.pending ∧
  cid ∈ s.issued ∧ cid ∉ s.sent ∧ cid ∉ queuedCids s ∧ cid ∉ inflightCids s

/-- Structural invariant of reachable states: every registered correlation
id was issued, every in-flight caller's id was issued, and no in-flight id
is already registered. -/
def StreamInv (s : StreamState) : Prop :=
  (∀ cid, (lookupStatus s.registry cid).isSome → cid ∈ s.issued) ∧
  (∀ p ∈ s.inflight, p.cid ∈ s.issued) ∧
  (∀ p ∈ s.inflight, lookupStatus s.registry p.cid = none)

/-- Concrete trace exhibiting the send/disconnect race: first connection;
a caller passes the readiness check of `Stream.send` with fresh
correlation id `"c"`; the peer disconnects (the fail-all loop runs over a
registry that does not yet contain `"c"`); the caller then runs the body
of `Stream.send` (registering the future, while `put_message` silently
drops the message because the ready event is clear); the client
reconnects. -/
def raceTrace : List StreamAction :=
  [StreamAction.reconnect "g0", StreamAction.sendCheck 7 "c" [1],
   StreamAction.disconnect, StreamAction.sendCommit "c",
   StreamAction.reconnect "g1"]

/-- The state reached by `raceTrace`: connected and ready in the second
epoch, with the future for `"c"` registered and still pending although
its message was never enqueued nor sent. -/
def raceState : StreamState :=
  { ready := true
    firstTime := false
    sockConnected := true
    sockIdentity := "g1"
    lingerDisabled := true
    monitorInstalled := true
    loopsStarted := true
    registry := [("c", FStatus.pending)]
    sendQueue := some []
    recvQueue := some [QItem.reconnectEvent]
    sent := []
    issued := ["c"]
    inflight := [] }

/-- Concrete trace for the disconnect fail-all path: first connection, a
complete `Stream.send` of correlation id `"c"`, a disconnect, and the
reconnect that starts the second epoch. -/
def drainTrace : List StreamAction :=
  [StreamAction.reconnect "g0", StreamAction.sendCheck 7 "c" [1],
   StreamAction.sendCommit "c", StreamAction.disconnect,
   StreamAction.reconnect "g1"]

/-- The state reached by `drainTrace`: the second epoch is ready, and the
registry still holds the entry for `"c"` (now failed) — the disconnect
handler resolved it but removed nothing. -/
def drainState : StreamState :=
  { ready := true
    firstTime := false
    sockConnected := true
    sockIdentity := "g1"
    lingerDisabled := true
    monitorInstalled := true
    loopsStarted := true
    registry := [("c", FStatus.failed)]
    sendQueue := some []
    recvQueue := some [QItem.reconnectEvent]
    sent := []
    issued := ["c"]
    inflight := [] }

/-- `_SendReceiveThread._get_message` / `Stream.receive` (stream.py lines
123-132 and 278-283): the consumer-side pull waits until the receive
queue exists and then pops its head item (`asyncio.Queue.get` is FIFO).
`none` models a pull that stays blocked: no queue exists (it was nulled
by `_monitor_disconnects`, line 146) or nothing is queued. -/
def get_message (s : StreamState) : Option (QItem × StreamState) :=
  match s.recvQueue with
  | some (x :: rest) => some (x, { s with recvQueue := some rest })
  | _ => none

/-- Repeated consumer pulls: `popMessages s n` skips `n` queued items and
returns the next one, as `n + 1` successive `Stream.receive` calls
would. -/
def popMessages : StreamState → Nat → Option (QItem × StreamState)
  | s, 0 => get_message s
  | s, n + 1 =>
    match get_message s with
    | some (_, s2) => popMessages s2 n
    | none => none

/-- An inbound envelope whose correlation id is never registered: a
registry miss on arrival. -/
def mDrop : Message :=
  { message_type := 5, correlation_id := "x", content := [9] }

/-- The state after the first connection and the arrival of the
unsolicited envelope `mDrop` (a registry miss, pushed onto the inbound
queue), before any consumer pull. -/
def midState : StreamState :=
  { ready := true
    firstTime := false
    sockConnected := true
    sockIdentity := "g0"
    lingerDisabled := true
    monitorInstalled := true
    loopsStarted := true
    registry := []
    sendQueue := some []
    recvQueue := some [QItem.msg mDrop]
    sent := []
    issued := []
    inflight := [] }

/-- Concrete trace for the unsolicited-drop path: first connection, the
registry-miss envelope `mDrop` arrives and is enqueued, then the peer
disconnects before any `Stream.receive` pull consumes it. -/
def dropTrace : List StreamAction :=
  [StreamAction.reconnect "g0", StreamAction.deliver mDrop,
   StreamAction.disconnect]

/-- The state reached by `dropTrace`: `_monitor_disconnects` has nulled
both queues (stream.py line 146), so the enqueued unsolicited envelope
is gone. -/
def dropState : StreamState :=
  { ready := false
    firstTime := false
    sockConnected := false
    sockIdentity := "g0"
    lingerDisabled := true
    monitorInstalled := true
    loopsStarted := false
    registry := []
    sendQueue := none
    recvQueue := none
    sent := []
    issued := []
    inflight := [] }

theorem put_message_registry (s : StreamState) (m : Message) :
    (put_message s m).registry = s.registry := by
  unfold put_message
  split
  · rfl
  · split <;> rfl

theorem put_message_inflight (s : StreamState) (m : Message) :
    (put_message s m).inflight = s.inflight := by
  unfold put_message
  split
  · rfl
  · split <;> rfl

theorem put_message_issued (s : StreamState) (m : Message) :
    (put_message s m).issued = s.issued := by
  unfold put_message
  split
  · rfl
  · split <;> rfl

theorem put_message_sent (s : StreamState) (m : Message) :
    (put_message s m).sent = s.sent := by
  unfold put_message
  split
  · rfl
  · split <;> rfl

theorem put_message_ready (s : StreamState) (m : Message) :
    (put_message s m).ready = s.ready := by
  unfold put_message
  split
  · rfl
  · split <;> rfl

theorem queuedCids_put_message (s : StreamState) (m : Message) (cid : String)
    (h1 : cid ∉ queuedCids s) (h2 : ¬ m.correlation_id = cid) :
    cid ∉ queuedCids (put_message s m) := by
  unfold put_message
  split
  · exact h1
  · split
    · next q hq =>
      have h1' : cid ∉ q.map Message.correlation_id := by
        unfold queuedCids at h1
        rw [hq] at h1
        simpa using h1
      show cid ∉ (q ++ [m]).map Message.correlation_id
      simp only [List.map_append, List.map_cons, List.map_nil, List.mem_append,
        List.mem_singleton]
      rintro (hc | hc)
      · exact h1' hc
      · exact h2 hc.symm
    · exact h1

theorem receive_message_step_inflight (s : StreamState) (m : Message) :
    (receive_message_step s m).inflight = s.inflight := by
  unfold receive_message_step
  split
  · rfl
  · split
    · rfl
    · split <;> rfl

theorem receive_message_step_issued (s : StreamState) (m : Message) :
    (receive_message_step s m).issued = s.issued := by
  unfold receive_message_step
  split
  · rfl
  · split
    · rfl
    · split <;> rfl

theorem receive_message_step_sent (s : StreamState) (m : Message) :
    (receive_message_step s m).sent = s.sent := by
  unfold receive_message_step
  split
  · rfl
  · split
    · rfl
    · split <;> rfl

theorem receive_message_step_sendQueue (s : StreamState) (m : Message) :
    (receive_message_step s m).sendQueue = s.sendQueue := by
  unfold receive_message_step
  split
  · rfl
  · split
    · rfl
    · split <;> rfl

theorem receive_message_step_registry_found (s : StreamState) (m : Message)
    (st : FStatus) (h : lookupStatus s.registry m.correlation_id = some st) :
    (receive_message_step s m).registry =
      eraseEntry s.registry m.correlation_id := by
  simp only [receive_message_step, h]

theorem receive_message_step_registry_miss (s : StreamState) (m : Message)
    (h : lookupStatus s.registry m.correlation_id = none) :
    (receive_message_step s m).registry = s.registry := by
  simp only [receive_message_step, h]
  split
  · rfl
  · split <;> rfl

theorem find?_inflight_eq (s : StreamState) (cid : String) (p : PendingSend)
    (h : s.inflight.find? (fun q => q.cid = cid) = some p) :
    p ∈ s.inflight ∧ p.cid = cid := by
  have h1 := List.mem_of_find?_eq_some h
  have h2 := List.find?_some h
  simp only [decide_eq_true_eq] at h2
  exact ⟨h1, h2⟩

theorem streamInv_init : StreamInv streamInit := by
  refine ⟨?_, ?_, ?_⟩
  · intro c hc
    simp [streamInit, lookupStatus] at hc
  · intro p hp
    simp [streamInit] at hp
  · intro p hp
    simp [streamInit] at hp

theorem streamInv_step (a : StreamAction) (s s' : StreamState)
    (h : applyAction a s = some s') (hinv : StreamInv s) : StreamInv s' := by
  obtain ⟨h1, h2, h3⟩ := hinv
  cases a with
  | sendCheck mt cid ct =>
    simp only [applyAction] at h
    split at h
    · next hc =>
      obtain ⟨hready, hfresh⟩ := hc
      obtain rfl : _ = s' := Option.some.inj h
      refine ⟨?_, ?_, ?_⟩
      · intro c hc'
        exact List.mem_cons_of_mem _ (h1 c hc')
      · intro p hp
        rcases List.mem_cons.mp hp with rfl | hp
        · exact List.mem_cons_self _ _
        · exact List.mem_cons_of_mem _ (h2 p hp)
      · intro p hp
        rcases List.mem_cons.mp hp with rfl | hp
        · cases hl : lookupStatus s.registry cid with
          | none => rfl
          | some st => exact absurd (h1 cid (by simp [hl])) hfresh
        · exact h3 p hp
    · exact absurd h (by simp)
  | sendCommit cid =>
    simp only [applyAction] at h
    cases hf : s.inflight.find? (fun q => q.cid = cid) with
    | none =>
      rw [hf] at h
      exact absurd h (by simp)
    | some p =>
      rw [hf] at h
      obtain rfl : _ = s' := Option.some.inj h
      obtain ⟨hpmem, hpcid⟩ := find?_inflight_eq s cid p hf
      have hreg : (put_message
          { s with
            inflight := s.inflight.filter (fun q => ¬ (q.cid = cid))
            registry := (cid, FStatus.pending) :: s.registry }
          { message_type := p.message_type, correlation_id := cid,
            content := p.content }).registry =
          (cid, FStatus.pending) :: s.registry := put_message_registry _ _
      have hinf : (put_message
          { s with
            inflight := s.inflight.filter (fun q => ¬ (q.cid = cid))
            registry := (cid, FStatus.pending) :: s.registry }
          { message_type := p.message_type, correlation_id := cid,
            content := p.content }).inflight =
          s.inflight.filter (fun q => ¬ (q.cid = cid)) := put_message_inflight _ _
      have hiss : (put_message
          { s with
            inflight := s.inflight.filter (fun q => ¬ (q.cid = cid))
            registry := (cid, FStatus.pending) :: s.registry }
          { message_type := p.message_type, correlation_id := cid,
            content := p.content }).issued = s.issued := put_message_issued _ _
      refine ⟨?_, ?_, ?_⟩
      · intro c hc
        rw [hreg] at hc
        rw [hiss]
        rw [lookupStatus_cons] at hc
        by_cases hcc : cid = c
        · subst hcc
          exact hpcid ▸ h2 p hpmem
        · rw [if_neg hcc] at hc
          exact h1 c hc
      · intro q hq
        rw [hinf] at hq
        rw [hiss]
        exact h2 q (List.mem_filter.mp hq).1
      · intro q hq
        rw [hinf] at hq
        rw [hreg]
        have hq' := List.mem_filter.mp hq
        have hqcid : ¬ q.cid = cid := by simpa using hq'.2
        rw [lookupStatus_cons, if_neg (fun hh => hqcid hh.symm)]
        exact h3 q hq'.1
  | sendWire =>
    simp only [applyAction] at h
    split at h
    · split at h
      · next m rest hq =>
        obtain rfl : _ = s' := Option.some.inj h
        exact ⟨h1, h2, h3⟩
      · exact absurd h (by simp)
    · exact absurd h (by simp)
  | deliver m =>
    simp only [applyAction] at h
    split at h
    · obtain rfl : _ = s' := Option.some.inj h
      refine ⟨?_, ?_, ?_⟩
      · intro c hc'
        rw [receive_message_step_issued]
        cases hl : lookupStatus s.registry m.correlation_id with
        | some st =>
          rw [receive_message_step_registry_found s m st hl] at hc'
          apply h1
          cases hor : lookupStatus s.registry c with
          | some st2 => simp
          | none =>
            rw [lookupStatus_eraseEntry_none s.registry _ c hor] at hc'
            simp at hc'
        | none =>
          rw [receive_message_step_registry_miss s m hl] at hc'
          exact h1 c hc'
      · intro p hp
        rw [receive_message_step_inflight] at hp
        rw [receive_message_step_issued]
        exact h2 p hp
      · intro p hp
        rw [receive_message_step_inflight] at hp
        cases hl : lookupStatus s.registry m.correlation_id with
        | some st =>
          rw [receive_message_step_registry_found s m st hl]
          exact lookupStatus_eraseEntry_none _ _ _ (h3 p hp)
        | none =>
          rw [receive_message_step_registry_miss s m hl]
          exact h3 p hp
    · exact absurd h (by simp)
  | disconnect =>
    simp only [applyAction] at h
    split at h
    · obtain rfl : _ = s' := Option.some.inj h
      refine ⟨?_, ?_, ?_⟩
      · intro c hc
        apply h1
        rw [show (monitor_disconnects_step s).registry = failAll s.registry from rfl,
          lookupStatus_failAll] at hc
        simpa using hc
      · exact h2
      · intro p hp
        rw [show (monitor_disconnects_step s).registry = failAll s.registry from rfl,
          lookupStatus_failAll, h3 p hp]
        rfl
    · exact absurd h (by simp)
  | reconnect gid =>
    simp only [applyAction] at h
    split at h
    · obtain rfl : _ = s' := Option.some.inj h
      exact ⟨h1, h2, h3⟩
    · exact absurd h (by simp)

theorem streamInv_runActions (tr : List StreamAction) (s s' : StreamState)
    (h : runActions tr s = some s') (hinv : StreamInv s) : StreamInv s' := by
  induction tr generalizing s with
  | nil =>
    obtain rfl : s = s' := Option.some.inj h
    exact hinv
  | cons a tr ih =>
    simp only [runActions] at h
    cases ha : applyAction a s with
    | none =>
      rw [ha] at h
      simp at h
    | some s1 =>
      rw [ha] at h
      exact ih s1 h (streamInv_step a s s1 ha ⟨hinv.1, hinv.2.1, hinv.2.2⟩)

theorem streamInv_reachable (s : StreamState) (h : Reachable s) : StreamInv s := by
  obtain ⟨tr, htr⟩ := h
  exact streamInv_runActions tr streamInit s htr streamInv_init

theorem unsentPending_step (a : StreamAction) (s s' : StreamState) (cid : String)
    (hnd : a.isDisconnect = false) (h : applyAction a s = some s')
    (hu : UnsentPending s cid) : UnsentPending s' cid := by
  obtain ⟨hreg, hiss, hsent, hqueue, hinf⟩ := hu
  cases a with
  | sendCheck mt c ct =>
    simp only [applyAction] at h
    split at h
    · next hc =>
      obtain ⟨hready, hfresh⟩ := hc
      obtain rfl : _ = s' := Option.some.inj h
      have hne : ¬ c = cid := fun hh => hfresh (hh ▸ hiss)
      refine ⟨hreg, List.mem_cons_of_mem _ hiss, hsent, hqueue, ?_⟩
      show cid ∉ c :: inflightCids s
      simp only [List.mem_cons, not_or]
      exact ⟨fun hh => hne hh.symm, hinf⟩
    · exact absurd h (by simp)
  | sendCommit c =>
    simp only [applyAction] at h
    cases hf : s.inflight.find? (fun q => q.cid = c) with
    | none =>
      rw [hf] at h
      exact absurd h (by simp)
    | some p =>
      rw [hf] at h
      obtain rfl : _ = s' := Option.some.inj h
      obtain ⟨hpmem, hpcid⟩ := find?_inflight_eq s c p hf
      have hcmem : c ∈ inflightCids s := List.mem_map.mpr ⟨p, hpmem, hpcid⟩
      have hcne : ¬ c = cid := fun hh => hinf (hh ▸ hcmem)
      refine ⟨?_, ?_, ?_, ?_, ?_⟩
      · rw [put_message_registry]
        show lookupStatus ((c, FStatus.pending) :: s.registry) cid =
          some FStatus.pending
        rw [lookupStatus_cons, if_neg hcne]
        exact hreg
      · rw [put_message_issued]
        exact hiss
      · rw [put_message_sent]
        exact hsent
      · exact queuedCids_put_message _ _ cid hqueue hcne
      · unfold inflightCids at hinf ⊢
        rw [put_message_inflight]
        intro hmem
        obtain ⟨q, hqmem, hqcid⟩ := List.mem_map.mp hmem
        exact hinf (List.mem_map.mpr ⟨q, (List.mem_filter.mp hqmem).1, hqcid⟩)
  | sendWire =>
    simp only [applyAction] at h
    split at h
    · split at h
      · next m rest hq =>
        obtain rfl : _ = s' := Option.some.inj h
        have hq' : cid ∉ (m :: rest).map Message.correlation_id := by
          unfold queuedCids at hqueue
          rw [hq] at hqueue
          simpa using hqueue
        simp only [List.map_cons, List.mem_cons, not_or] at hq'
        refine ⟨hreg, hiss, ?_, ?_, hinf⟩
        · show cid ∉ m.correlation_id :: s.sent
          simp only [List.mem_cons, not_or]
          exact ⟨hq'.1, hsent⟩
        · show cid ∉ rest.map Message.correlation_id
          simpa using hq'.2
      · exact absurd h (by simp)
    · exact absurd h (by simp)
  | deliver m =>
    simp only [applyAction] at h
    split at h
    · next hc =>
      obtain ⟨hrl, hpeer⟩ := hc
      obtain rfl : _ = s' := Option.some.inj h
      have hmne : ¬ m.correlation_id = cid := by
        intro hh
        rcases hpeer with hs | hi
        · exact hsent (hh ▸ hs)
        · exact hi (hh ▸ hiss)
      refine ⟨?_, ?_, ?_, ?_, ?_⟩
      · cases hl : lookupStatus s.registry m.correlation_id with
        | some st =>
          rw [receive_message_step_registry_found s m st hl,
            lookupStatus_eraseEntry_ne _ _ _ hmne]
          exact hreg
        | none =>
          rw [receive_message_step_registry_miss s m hl]
          exact hreg
      · rw [receive_message_step_issued]
        exact hiss
      · rw [receive_message_step_sent]
        exact hsent
      · unfold queuedCids at hqueue ⊢
        rw [receive_message_step_sendQueue]
        exact hqueue
      · unfold inflightCids at hinf ⊢
        rw [receive_message_step_inflight]
        exact hinf
    · exact absurd h (by simp)
  | disconnect =>
    simp [StreamAction.isDisconnect] at hnd
  | reconnect gid =>
    simp only [applyAction] at h
    split at h
    · obtain rfl : _ = s' := Option.some.inj h
      refine ⟨hreg, hiss, hsent, ?_, hinf⟩
      show cid ∉ ([] : List String)
      simp
    · exact absurd h (by simp)

theorem unsentPending_run (tr : List StreamAction) (s s' : StreamState)
    (cid : String) (hdf : DisconnectFree tr) (h : runActions tr s = some s')
    (hu : UnsentPending s cid) : UnsentPending s' cid := by
  induction tr generalizing s with
  | nil =>
    obtain rfl : s = s' := Option.some.inj h
    exact hu
  | cons a tr ih =>
    simp only [runActions] at h
    cases ha : applyAction a s with
    | none =>
      rw [ha] at h
      simp at h
    | some s1 =>
      rw [ha] at h
      have hda : a.isDisconnect = false := hdf a (List.mem_cons_self _ _)
      exact ih s1 (fun b hb => hdf b (List.mem_cons_of_mem _ hb)) h
        (unsentPending_step a s s1 cid hda ha ⟨hu.1, hu.2.1, hu.2.2.1,
          hu.2.2.2.1, hu.2.2.2.2⟩)

theorem lookupStatus_eraseEntry_self (r : List (String × FStatus)) (k : String) :
    lookupStatus (eraseEntry r k) k = none := by
  induction r with
  | nil => rfl
  | cons p r ih =>
    obtain ⟨a, st⟩ := p
    by_cases ha : a = k
    · simpa [eraseEntry, List.filter, ha] using ih
    · simp_all [eraseEntry, lookupStatus_cons, List.filter]

/-- C2: a `Stream.send` or `Stream.send_back` call made while the ready
event is clear raises `ValidatorConnectionError` immediately: the model
returns the error without producing a message, touching the registry, or
touching the outbound queue (the error branch of `Stream.send` /
`Stream.send_back` is taken before any of those, stream.py lines 250-251
and 270-271). -/
theorem send_not_ready_rejected (s : StreamState) (mt mt2 : Nat)
    (ct ct2 : List Nat) (cid cid2 : String) (h : s.ready = false) :
    Stream.send s mt ct cid = Except.error VError.validatorConnectionError ∧
    Stream.send_back s mt2 cid2 ct2 =
      Except.error VError.validatorConnectionError := by
  constructor <;> simp [Stream.send, Stream.send_back, h]

theorem send_not_ready_rejected_witness :
    (monitor_disconnects_step streamInit).ready = false ∧
    (Stream.send (monitor_disconnects_step streamInit) 7 [1] "c" =
        Except.error VError.validatorConnectionError ∧
      Stream.send_back (monitor_disconnects_step streamInit) 8 "d" [2] =
        Except.error VError.validatorConnectionError) :=
  ⟨rfl, send_not_ready_rejected (monitor_disconnects_step streamInit)
    7 8 [1] [2] "c" "d" rfl⟩

theorem popMessages_delivers (m : Message) (q : List QItem) (s : StreamState)
    (hq : s.recvQueue = some (q ++ [QItem.msg m])) :
    ∃ sfin, popMessages s q.length = some (QItem.msg m, sfin) ∧
      sfin.recvQueue = some [] := by
  induction q generalizing s with
  | nil =>
    refine ⟨{ s with recvQueue := some [] }, ?_, rfl⟩
    simp [popMessages, get_message, hq]
  | cons x rest ih =>
    have hstep : get_message s =
        some (x, { s with recvQueue := some (rest ++ [QItem.msg m]) }) := by
      simp [get_message, hq]
    obtain ⟨sfin, hpop, hfin⟩ :=
      ih { s with recvQueue := some (rest ++ [QItem.msg m]) } rfl
    refine ⟨sfin, ?_, hfin⟩
    simp [popMessages, hstep, hpop]

/-- C3 counterexample: the claim says a registry-miss envelope is pushed
onto the inbound queue and later delivered unmodified via `receive()`,
never dropped; but after the concrete trace `dropTrace` — first
connection, arrival of the unsolicited envelope `mDrop` (pushed onto the
queue, as `midState` shows), then a disconnect before any consumer pull —
`_monitor_disconnects` has nulled the inbound queue (stream.py line 146):
the pushed envelope is gone and a `receive()` pull finds nothing, so the
envelope was dropped, never delivered. -/
theorem receive_miss_dropped_on_disconnect_cex :
    runActions [StreamAction.reconnect "g0", StreamAction.deliver mDrop]
        streamInit = some midState ∧
    midState.recvQueue = some [QItem.msg mDrop] ∧
    runActions dropTrace streamInit = some dropState ∧
    dropState.recvQueue = none ∧
    get_message dropState = none :=
  ⟨by decide, rfl, by decide, rfl, rfl⟩

/-- C3 amended: when an inbound envelope's correlation id has no entry in
the `FutureCollection` (a registry miss, `FutureCollectionKeyError`) and
the ready event is set, one iteration of `_receive_message` appends
exactly that message, unmodified, to the tail of the inbound queue and
changes nothing else — in particular no future is touched (the registry
is unchanged, so nothing is misrouted) — and successive `receive()`
pulls deliver it unmodified in arrival order, after the items queued
before it; but this holds only until the next disconnect: the disconnect
monitor nulls the inbound queue (line 146), discarding every unsolicited
message still on it. -/
theorem receive_registry_miss_enqueued_until_disconnect (s : StreamState)
    (m : Message) (q : List QItem) (hready : s.ready = true)
    (hmiss : lookupStatus s.registry m.correlation_id = none)
    (hq : s.recvQueue = some q) :
    receive_message_step s m =
      { s with recvQueue := some (q ++ [QItem.msg m]) } ∧
    (∃ sfin, popMessages { s with recvQueue := some (q ++ [QItem.msg m]) }
        q.length = some (QItem.msg m, sfin) ∧ sfin.recvQueue = some []) ∧
    (monitor_disconnects_step
      { s with recvQueue := some (q ++ [QItem.msg m]) }).recvQueue = none := by
  refine ⟨?_, popMessages_delivers m q _ rfl, rfl⟩
  simp [receive_message_step, hmiss, hready, hq]

theorem receive_registry_miss_enqueued_until_disconnect_witness :
    receive_message_step (runSetup "g0" streamInit) mDrop =
      { runSetup "g0" streamInit with
        recvQueue := some [QItem.msg mDrop] } ∧
    (∃ sfin, popMessages
        { runSetup "g0" streamInit with recvQueue := some [QItem.msg mDrop] }
        ([] : List QItem).length = some (QItem.msg mDrop, sfin) ∧
      sfin.recvQueue = some []) ∧
    (monitor_disconnects_step
      { runSetup "g0" streamInit with
        recvQueue := some [QItem.msg mDrop] }).recvQueue = none :=
  receive_registry_miss_enqueued_until_disconnect (runSetup "g0" streamInit)
    mDrop [] rfl (by decide) rfl

/-- C4: a future pending at the moment `_monitor_disconnects` observes a
disconnect is failed by the fail-all loop; right after that step the
ready event is clear, so a `Stream.send` attempted in the window raises
`ValidatorConnectionError`; and when the next epoch setup makes the
ready event true again the future is (still) failed. -/
theorem disconnect_fails_pending_before_ready (s : StreamState)
    (cid gid cid2 : String) (mt : Nat) (ct : List Nat)
    (h : lookupStatus s.registry cid = some FStatus.pending) :
    lookupStatus (monitor_disconnects_step s).registry cid =
      some FStatus.failed ∧
    (monitor_disconnects_step s).ready = false ∧
    Stream.send (monitor_disconnects_step s) mt ct cid2 =
      Except.error VError.validatorConnectionError ∧
    lookupStatus (runSetup gid (monitor_disconnects_step s)).registry cid =
      some FStatus.failed ∧
    (runSetup gid (monitor_disconnects_step s)).ready = true := by
  have hfail : lookupStatus (failAll s.registry) cid = some FStatus.failed := by
    rw [lookupStatus_failAll, h]
    rfl
  refine ⟨hfail, rfl, ?_, hfail, rfl⟩
  simp [Stream.send, monitor_disconnects_step]

theorem disconnect_fails_pending_before_ready_witness :
    lookupStatus (monitor_disconnects_step
        { streamInit with registry := [("c", FStatus.pending)] }).registry "c" =
      some FStatus.failed ∧
    (monitor_disconnects_step
      { streamInit with registry := [("c", FStatus.pending)] }).ready = false ∧
    Stream.send (monitor_disconnects_step
        { streamInit with registry := [("c", FStatus.pending)] }) 7 [1] "d" =
      Except.error VError.validatorConnectionError ∧
    lookupStatus (runSetup "g1" (monitor_disconnects_step
        { streamInit with registry := [("c", FStatus.pending)] })).registry "c" =
      some FStatus.failed ∧
    (runSetup "g1" (monitor_disconnects_step
      { streamInit with registry := [("c", FStatus.pending)] })).ready = true :=
  disconnect_fails_pending_before_ready
    { streamInit with registry := [("c", FStatus.pending)] }
    "c" "g1" "d" 7 [1] (by decide)

/-- C5 counterexample: the claim says the disconnect handler drains every
entry out of the registry so that it is empty before the next epoch; but
after the concrete trace `drainTrace` (connect, a full `Stream.send` of
correlation id "c", a disconnect, a reconnect) the second epoch starts
with the registry still holding the entry for "c": `_monitor_disconnects`
(stream.py lines 141-142) iterates `future_values()` and calls
`set_result` on each future but never calls `remove`, so nothing is
drained. -/
theorem monitor_keeps_entries_cex :
    runActions drainTrace streamInit = some drainState ∧
    drainState.registry = [("c", FStatus.failed)] ∧
    drainState.ready = true ∧
    ¬ drainState.registry = [] :=
  ⟨by decide, rfl, rfl, by decide⟩

/-- C5 amended: on a disconnect the fail-all loop of
`_monitor_disconnects` resolves every pending future in the registry to
Failed, but it does not drain the registry: the set of registered
correlation ids is unchanged, so the registry is reused for the next
epoch still holding the (now failed) entries. -/
theorem monitor_fails_pending_keeps_entries (s : StreamState) (cid : String)
    (h : lookupStatus s.registry cid = some FStatus.pending) :
    (monitor_disconnects_step s).registry.map Prod.fst =
      s.registry.map Prod.fst ∧
    lookupStatus (monitor_disconnects_step s).registry cid =
      some FStatus.failed := by
  constructor
  · exact failAll_keys s.registry
  · rw [show (monitor_disconnects_step s).registry = failAll s.registry from rfl,
      lookupStatus_failAll, h]
    rfl

theorem monitor_fails_pending_keeps_entries_witness :
    (monitor_disconnects_step
        { streamInit with registry := [("c", FStatus.pending)] }).registry.map
        Prod.fst =
      ({ streamInit with
        registry := [("c", FStatus.pending)] } : StreamState).registry.map
        Prod.fst ∧
    lookupStatus (monitor_disconnects_step
        { streamInit with registry := [("c", FStatus.pending)] }).registry "c" =
      some FStatus.failed :=
  monitor_fails_pending_keeps_entries
    { streamInit with registry := [("c", FStatus.pending)] } "c" (by decide)

/-- C6: on every pass of `_SendReceiveThread.run` after the first
(`first_time` false), the point of the setup at which the queues have
just been created (stream.py lines 209-212) has the fresh inbound queue
holding exactly the `RECONNECT_EVENT` sentinel as its first (and only)
item, while the three loops of the new epoch are not yet scheduled and
the ready event is untouched; scheduling the loops and setting the ready
event happen only in the final stage of the pass. -/
theorem reconnect_marker_before_loops (gid : String) (s : StreamState)
    (h : s.firstTime = false) :
    (epochQueueSetup (epochSocketSetup gid s)).recvQueue =
      some [QItem.reconnectEvent] ∧
    (epochQueueSetup (epochSocketSetup gid s)).loopsStarted = s.loopsStarted ∧
    (epochQueueSetup (epochSocketSetup gid s)).ready = s.ready ∧
    runSetup gid s = epochLoopStart (epochQueueSetup (epochSocketSetup gid s)) := by
  refine ⟨?_, rfl, rfl, rfl⟩
  simp [epochQueueSetup, epochSocketSetup, h]

theorem reconnect_marker_before_loops_witness :
    (epochQueueSetup (epochSocketSetup "g1"
        (monitor_disconnects_step (runSetup "g0" streamInit)))).recvQueue =
      some [QItem.reconnectEvent] ∧
    (epochQueueSetup (epochSocketSetup "g1"
        (monitor_disconnects_step (runSetup "g0" streamInit)))).loopsStarted =
      (monitor_disconnects_step (runSetup "g0" streamInit)).loopsStarted ∧
    (epochQueueSetup (epochSocketSetup "g1"
        (monitor_disconnects_step (runSetup "g0" streamInit)))).ready =
      (monitor_disconnects_step (runSetup "g0" streamInit)).ready ∧
    runSetup "g1" (monitor_disconnects_step (runSetup "g0" streamInit)) =
      epochLoopStart (epochQueueSetup (epochSocketSetup "g1"
        (monitor_disconnects_step (runSetup "g0" streamInit)))) :=
  reconnect_marker_before_loops "g1"
    (monitor_disconnects_step (runSetup "g0" streamInit)) rfl

/-- C7: every pass of the epoch setup at the top of
`_SendReceiveThread.run` produces a connected fresh socket whose identity
is the first 16 characters of the fresh `_generate_id()` draw, with
linger-on-close disabled, a disconnect monitor installed, a fresh empty
outbound queue, a fresh inbound queue (empty on the first pass, holding
only the reconnect sentinel afterwards), the three loops scheduled, and
the ready event set — and the ready event is not touched by the
socket/queue stages, only by the final stage. -/
theorem epoch_setup_fresh_state (gid : String) (s : StreamState) :
    (runSetup gid s).sockConnected = true ∧
    (runSetup gid s).sockIdentity = gid.take 16 ∧
    (runSetup gid s).lingerDisabled = true ∧
    (runSetup gid s).monitorInstalled = true ∧
    (runSetup gid s).sendQueue = some [] ∧
    (runSetup gid s).recvQueue =
      some (if s.firstTime then [] else [QItem.reconnectEvent]) ∧
    (runSetup gid s).loopsStarted = true ∧
    (runSetup gid s).ready = true ∧
    (epochQueueSetup (epochSocketSetup gid s)).ready = s.ready := by
  refine ⟨?_, ?_, ?_, ?_, ?_, ?_, ?_, ?_, ?_⟩ <;>
    simp [runSetup, epochLoopStart, epochQueueSetup, epochSocketSetup]

/-- C8: a `Stream.send` made while the ready event is set and the
outbound queue exists builds the envelope carrying exactly the requested
message type, the freshly drawn correlation id and the given content,
registers a pending future under that same correlation id in the
`FutureCollection`, appends the envelope to the outbound queue, and
returns the future (identified by its correlation id) immediately. -/
theorem send_ready_registers_and_enqueues (s : StreamState) (mt : Nat)
    (ct : List Nat) (cid : String) (q : List Message)
    (hready : s.ready = true) (hq : s.sendQueue = some q) :
    Stream.send s mt ct cid =
      Except.ok (cid,
        { s with
          registry := (cid, FStatus.pending) :: s.registry
          sendQueue := some (q ++
            [{ message_type := mt, correlation_id := cid, content := ct }]) }) ∧
    lookupStatus ((cid, FStatus.pending) :: s.registry) cid =
      some FStatus.pending := by
  constructor
  · simp [Stream.send, put_message, hready, hq]
  · rw [lookupStatus_cons, if_pos rfl]

theorem send_ready_registers_and_enqueues_witness :
    Stream.send (runSetup "g0" streamInit) 7 [1] "c" =
      Except.ok ("c",
        { runSetup "g0" streamInit with
          registry := [("c", FStatus.pending)]
          sendQueue := some
            [{ message_type := 7, correlation_id := "c", content := [1] }] }) ∧
    lookupStatus (("c", FStatus.pending) :: (runSetup "g0" streamInit).registry)
        "c" = some FStatus.pending :=
  send_ready_registers_and_enqueues (runSetup "g0" streamInit)
    7 [1] "c" [] rfl rfl

/-- C9 counterexample: the claim says `is_ready()` is true only while the
socket is connected and the worker loops are running, and never before
the first connection; but `Stream.__init__` (stream.py line 233) sets the
event before the background thread has connected, so in the state right
after construction `is_ready()` already returns true with no socket and
no loops. -/
theorem ready_true_before_first_connection_cex :
    Stream.is_ready streamInit = true ∧
    streamInit.sockConnected = false ∧
    streamInit.loopsStarted = false :=
  ⟨rfl, rfl, rfl⟩

/-- C9 amended: the ready event is cleared by the disconnect monitor and
set again only by the epoch setup (readiness is false throughout the
disconnect-to-reconnect window, and the only transition that raises it is
the reconnect step); however it is also initialised to true at
construction, before the first connection is established. -/
theorem readiness_amended :
    Stream.is_ready streamInit = true ∧
    (∀ s : StreamState, Stream.is_ready (monitor_disconnects_step s) = false) ∧
    (∀ (gid : String) (s : StreamState),
      Stream.is_ready (runSetup gid s) = true) ∧
    (∀ (a : StreamAction) (s s' : StreamState), applyAction a s = some s' →
      s.ready = false → s'.ready = true →
      ∃ gid, a = StreamAction.reconnect gid) := by
  refine ⟨rfl, fun s => rfl, fun gid s => rfl, ?_⟩
  intro a s s' hstep hfalse htrue
  cases a with
  | sendCheck mt cid ct =>
    simp only [applyAction] at hstep
    split at hstep
    · next hc =>
      rw [hfalse] at hc
      simp at hc
    · exact absurd hstep (by simp)
  | sendCommit cid =>
    simp only [applyAction] at hstep
    cases hf : s.inflight.find? (fun q => q.cid = cid) with
    | none =>
      rw [hf] at hstep
      exact absurd hstep (by simp)
    | some p =>
      rw [hf] at hstep
      obtain rfl : _ = s' := Option.some.inj hstep
      rw [put_message_ready] at htrue
      have ht2 : s.ready = true := htrue
      rw [hfalse] at ht2
      exact absurd ht2 (by simp)
  | sendWire =>
    simp only [applyAction] at hstep
    split at hstep
    · next hc =>
      rw [hfalse] at hc
      simp at hc
    · exact absurd hstep (by simp)
  | deliver m =>
    simp only [applyAction] at hstep
    split at hstep
    · next hc =>
      rw [hfalse] at hc
      simp at hc
    · exact absurd hstep (by simp)
  | disconnect =>
    simp only [applyAction] at hstep
    split at hstep
    · obtain rfl : _ = s' := Option.some.inj hstep
      simp [monitor_disconnects_step] at htrue
    · exact absurd hstep (by simp)
  | reconnect gid =>
    exact ⟨gid, rfl⟩

theorem readiness_amended_witness :
    ∃ gid, StreamAction.reconnect "g1" = StreamAction.reconnect gid :=
  readiness_amended.2.2.2 (StreamAction.reconnect "g1")
    (monitor_disconnects_step (runSetup "g0" streamInit))
    (runSetup "g1" (monitor_disconnects_step (runSetup "g0" streamInit)))
    (by decide) rfl rfl

/-- C10: a call to `_SendReceiveThread.put_message` made while the ready
event is clear returns immediately with the state unchanged — the
message is not placed on the outbound queue and no error is raised or
recorded (stream.py lines 155-156), so such a message is silently
discarded. -/
theorem put_message_not_ready_noop (s : StreamState) (m : Message)
    (h : s.ready = false) : put_message s m = s := by
  simp [put_message, h]

theorem put_message_not_ready_noop_witness :
    put_message (monitor_disconnects_step (runSetup "g0" streamInit))
        { message_type := 7, correlation_id := "c", content := [1] } =
      monitor_disconnects_step (runSetup "g0" streamInit) :=
  put_message_not_ready_noop (monitor_disconnects_step (runSetup "g0" streamInit))
    { message_type := 7, correlation_id := "c", content := [1] } rfl

/-- C1 counterexample: the claim promises every correlation id issued by
`send` exactly one terminal resolution unless the process is killed; but
after the concrete interleaving `raceTrace` — the caller passes the
readiness check (line 250), the disconnect monitor clears the event and
runs the fail-all loop over a registry not yet containing "c"
(lines 140-142), the caller then registers its future while `put_message`
silently discards the message (lines 155-156), and the client reconnects
— the future for "c" is pending in a ready, connected state, and along
every continuation that contains no further disconnect event it stays
pending forever: no resolution is ever observed although the process is
never killed. -/
theorem send_disconnect_race_pending_forever :
    runActions raceTrace streamInit = some raceState ∧
    raceState.ready = true ∧
    lookupStatus raceState.registry "c" = some FStatus.pending ∧
    ∀ (tr : List StreamAction) (s' : StreamState), DisconnectFree tr →
      runActions tr raceState = some s' →
      lookupStatus s'.registry "c" = some FStatus.pending := by
  refine ⟨by decide, rfl, by decide, ?_⟩
  intro tr s' hdf h
  have hu : UnsentPending raceState "c" := by
    unfold UnsentPending queuedCids inflightCids
    decide
  exact (unsentPending_run tr raceState s' "c" hdf h hu).1

/-- C1 amended: per correlation id at most one terminal resolution is
observed — a future failed by the disconnect handler stays failed (a
later matching inbound can only remove the entry, since `set_result` is
first-assignment-wins and the receive path then removes it), and a
resolve via the receive path removes the entry so it cannot be resolved
twice; but at-least-one resolution is not guaranteed, because a `send`
racing with a disconnect can leave its future pending indefinitely (see
the race counterexample). -/
theorem failed_future_absorbing (s : StreamState) (a : StreamAction)
    (s' : StreamState) (cid : String) (hreach : Reachable s)
    (hstep : applyAction a s = some s')
    (hfail : lookupStatus s.registry cid = some FStatus.failed) :
    lookupStatus s'.registry cid = some FStatus.failed ∨
    lookupStatus s'.registry cid = none := by
  obtain ⟨h1, h2, h3⟩ := streamInv_reachable s hreach
  cases a with
  | sendCheck mt c ct =>
    simp only [applyAction] at hstep
    split at hstep
    · obtain rfl : _ = s' := Option.some.inj hstep
      exact Or.inl hfail
    · exact absurd hstep (by simp)
  | sendCommit c =>
    simp only [applyAction] at hstep
    cases hf : s.inflight.find? (fun q => q.cid = c) with
    | none =>
      rw [hf] at hstep
      exact absurd hstep (by simp)
    | some p =>
      rw [hf] at hstep
      obtain rfl : _ = s' := Option.some.inj hstep
      obtain ⟨hpmem, hpcid⟩ := find?_inflight_eq s c p hf
      have hcne : ¬ c = cid := by
        intro hh
        have hnone := h3 p hpmem
        rw [hpcid, hh, hfail] at hnone
        exact Option.noConfusion hnone
      left
      rw [put_message_registry]
      show lookupStatus ((c, FStatus.pending) :: s.registry) cid =
        some FStatus.failed
      rw [lookupStatus_cons, if_neg hcne]
      exact hfail
  | sendWire =>
    simp only [applyAction] at hstep
    split at hstep
    · split at hstep
      · next m rest hq =>
        obtain rfl : _ = s' := Option.some.inj hstep
        exact Or.inl hfail
      · exact absurd hstep (by simp)
    · exact absurd hstep (by simp)
  | deliver m =>
    simp only [applyAction] at hstep
    split at hstep
    · obtain rfl : _ = s' := Option.some.inj hstep
      by_cases hmc : m.correlation_id = cid
      · right
        rw [receive_message_step_registry_found s m FStatus.failed
          (hmc ▸ hfail)]
        rw [hmc]
        exact lookupStatus_eraseEntry_self _ _
      · cases hl : lookupStatus s.registry m.correlation_id with
        | some st =>
          left
          rw [receive_message_step_registry_found s m st hl,
            lookupStatus_eraseEntry_ne _ _ _ hmc]
          exact hfail
        | none =>
          left
          rw [receive_message_step_registry_miss s m hl]
          exact hfail
    · exact absurd hstep (by simp)
  | disconnect =>
    simp only [applyAction] at hstep
    split at hstep
    · obtain rfl : _ = s' := Option.some.inj hstep
      left
      rw [show (monitor_disconnects_step s).registry = failAll s.registry
          from rfl,
        lookupStatus_failAll, hfail]
      rfl
    · exact absurd hstep (by simp)
  | reconnect gid =>
    simp only [applyAction] at hstep
    split at hstep
    · obtain rfl : _ = s' := Option.some.inj hstep
      exact Or.inl hfail
    · exact absurd hstep (by simp)

theorem failed_future_absorbing_witness :
    lookupStatus (monitor_disconnects_step drainState).registry "c" =
      some FStatus.failed ∨
    lookupStatus (monitor_disconnects_step drainState).registry "c" = none :=
  failed_future_absorbing drainState StreamAction.disconnect
    (monitor_disconnects_step drainState) "c"
    ⟨drainTrace, by decide⟩ (by decide) (by decide)
